import Mathlib

/-!
Verification of the multi-provider dispatch/cancellation core and the four
provider adapters of the poprawiacz-tekstu-rs repository, as a shallow
embedding in Lean 4.

The adapters (src/api/openai.rs, anthropic.rs, gemini.rs, deepseek.rs) are
embedded as pure functions over an explicit network environment: the outcome
of the HTTP send, the parsed JSON body, the list of streamed byte chunks and
the per-frame JSON decoder (serde_json, an external dependency) are inputs.
The GTK dispatch core (src/app.rs) is embedded as a state machine over the
session counter, the four per-provider cancellation flags and the task/relay
queues.
-/

set_option maxHeartbeats 1000000

/-- `ApiError` from src/error.rs: the three-way error taxonomy. -/
inductive ApiError where
  | Connection (msg : String) : ApiError
  | Response (msg : String) : ApiError
  | Timeout (msg : String) : ApiError
deriving DecidableEq, Repr

/-- `DEFAULT_TIMEOUT` from src/error.rs (seconds). -/
def DEFAULT_TIMEOUT : Nat := 25

/-- `QUICK_TIMEOUT` from src/error.rs (seconds). -/
def QUICK_TIMEOUT : Nat := 12

/-- `CONNECTION_TIMEOUT` from src/error.rs (seconds). -/
def CONNECTION_TIMEOUT : Nat := 8

/-- `DEEPSEEK_TIMEOUT` from src/error.rs (seconds). -/
def DEEPSEEK_TIMEOUT : Nat := 35

/-- The timeout-relevant configuration of a reqwest client: the total request
timeout, the connect timeout and the read timeout, each `none` when the
builder does not set it. -/
structure ClientCfg where
  timeoutSecs : Option Nat
  connectTimeoutSecs : Option Nat
  readTimeoutSecs : Option Nat
deriving DecidableEq, Repr

/-- `SHARED_CLIENT` from src/api/http_client.rs: total timeout
`DEFAULT_TIMEOUT`, connect timeout `CONNECTION_TIMEOUT`, no read timeout. -/
def SHARED_CLIENT : ClientCfg :=
  { timeoutSecs := some DEFAULT_TIMEOUT
    connectTimeoutSecs := some CONNECTION_TIMEOUT
    readTimeoutSecs := none }

/-- `STREAMING_CLIENT` from src/api/http_client.rs: no total timeout, connect
timeout `CONNECTION_TIMEOUT`, read timeout 120 s. -/
def STREAMING_CLIENT : ClientCfg :=
  { timeoutSecs := none
    connectTimeoutSecs := some CONNECTION_TIMEOUT
    readTimeoutSecs := some 120 }

/-- Classification of a failed `.send()` call, mirroring the reqwest error
predicates the adapters branch on: `is_timeout()`, `is_connect()`, otherwise. -/
inductive SendErr where
  | timedOut : SendErr
  | connectFailed (msg : String) : SendErr
  | otherFailed (msg : String) : SendErr
deriving DecidableEq, Repr

/-- A completed HTTP exchange: the status code and the body text that the
non-2xx branch reads via `response.text()`. -/
structure SendOk where
  status : Nat
  bodyText : String
deriving DecidableEq, Repr

/-- `reqwest::StatusCode::is_success`: 2xx. -/
def statusIsSuccess (s : Nat) : Bool := 200 ≤ s && s < 300

/-!
Rust string primitives (`str::trim`, `str::starts_with`, byte-slicing and
`str::lines`) modelled over the character list of a Lean `String` with
structural recursion, so that every adapter definition evaluates inside the
kernel. Whitespace is the ASCII class (space, tab, CR, LF), which covers all
inputs these claims are about.
-/

/-- Characters of `cs` with leading and trailing whitespace removed. -/
def trimChars (cs : List Char) : List Char :=
  ((cs.dropWhile Char.isWhitespace).reverse.dropWhile Char.isWhitespace).reverse

/-- `str::trim`. -/
def rustTrim (s : String) : String := String.mk (trimChars s.data)

/-- Is `p` a prefix of `cs`? -/
def leadsWith : List Char → List Char → Bool
  | [], _ => true
  | _ :: _, [] => false
  | p :: ps, c :: cs => if p = c then leadsWith ps cs else false

/-- `str::starts_with`. -/
def rustStartsWith (s p : String) : Bool := leadsWith p.data s.data

/-- Byte-slicing `&line[n..]` for ASCII prefixes: drop the first `n`
characters. -/
def rustDrop (s : String) (n : Nat) : String := String.mk (s.data.drop n)

/-- `str::is_empty`. -/
def rustIsEmpty (s : String) : Bool := s.data.isEmpty

/-- Split a character list on newline characters. -/
def splitNl : List Char → List (List Char)
  | [] => [[]]
  | c :: rest =>
    if c = '\n' then [] :: splitNl rest
    else
      match splitNl rest with
      | [] => [[c]]
      | l :: ls => (c :: l) :: ls

/-- `str::lines` as used by the SSE loops (`buffer.lines()`): split on
newlines. Trailing-empty and CR differences from Rust are irrelevant here
because lines without the `data: ` prefix are skipped. -/
def rustLines (s : String) : List String := (splitNl s.data).map String.mk

instance {α β : Type} [DecidableEq α] [DecidableEq β] : DecidableEq (Except α β) := fun x y =>
  match x, y with
  | Except.ok a, Except.ok b => decidable_of_iff (a = b) (by simp)
  | Except.ok _, Except.error _ => isFalse (by simp)
  | Except.error _, Except.ok _ => isFalse (by simp)
  | Except.error a, Except.error b => decidable_of_iff (a = b) (by simp)

/-- One step of a provider's SSE line loop: skip the line, emit extracted text
fragments (in order), or stop (the `break` on a `[DONE]` sentinel frame). -/
inductive LineAct where
  | skip : LineAct
  | emit (ts : List String) : LineAct
  | stop : LineAct
deriving DecidableEq, Repr

/-- The `for line in buffer.lines()` loop shared by the streaming branches:
`f` classifies each line; emitted fragments are appended to the accumulator
`acc` and passed to the chunk callback (recorded in order in `cbs`);
`.stop` breaks out of the line loop of the current network chunk. -/
def linesLoop (f : String → LineAct) : List String → String → List String → String × List String
  | [], acc, cbs => (acc, cbs)
  | line :: rest, acc, cbs =>
    match f line with
    | LineAct.skip => linesLoop f rest acc cbs
    | LineAct.stop => (acc, cbs)
    | LineAct.emit ts => linesLoop f rest (acc ++ String.join ts) (cbs ++ ts)

/-- The `while let Some(chunk_result) = stream.next().await` loop shared by
the streaming branches: a transport error on a chunk aborts the loop with
that error (the accumulated callback list is kept, as the callbacks already
ran); otherwise the chunk's lines are processed and the loop continues. -/
def chunksLoop (f : String → LineAct) :
    List (Except String String) → String → List String → Except String String × List String
  | [], acc, cbs => (Except.ok acc, cbs)
  | Except.error e :: _, _, cbs => (Except.error e, cbs)
  | Except.ok s :: rest, acc, cbs =>
    chunksLoop f rest (linesLoop f (rustLines s) acc cbs).1 (linesLoop f (rustLines s) acc cbs).2

/-- Variant of `linesLoop` for src/api/openai.rs, whose streaming loop has no
chunk callback: only the accumulator is threaded. -/
def linesLoopNoCb (f : String → LineAct) : List String → String → String
  | [], acc => acc
  | line :: rest, acc =>
    match f line with
    | LineAct.skip => linesLoopNoCb f rest acc
    | LineAct.stop => acc
    | LineAct.emit ts => linesLoopNoCb f rest (acc ++ String.join ts)

/-- Variant of `chunksLoop` without a callback, for src/api/openai.rs. -/
def chunksLoopNoCb (f : String → LineAct) :
    List (Except String String) → String → Except String String
  | [], acc => Except.ok acc
  | Except.error e :: _, _ => Except.error e
  | Except.ok s :: rest, acc =>
    chunksLoopNoCb f rest (linesLoopNoCb f (rustLines s) acc)

/-- The tail of every streaming branch (identical in anthropic.rs,
deepseek.rs and gemini.rs): a transport error from the chunk loop becomes a
Response error; an empty accumulator becomes the "No content in streaming
response" Response error; otherwise the trimmed accumulator is the Ok result.
The callback argument list rides along unchanged. -/
def streamFinish (p : Except String String × List String) :
    Except ApiError String × List String :=
  match p with
  | (Except.error e, cbs) => (Except.error (ApiError.Response e), cbs)
  | (Except.ok collected, cbs) =>
    if rustIsEmpty collected then
      (Except.error (ApiError.Response "No content in streaming response"), cbs)
    else (Except.ok (rustTrim collected), cbs)

namespace OpenAI

/-- `MessageContent` from src/api/openai.rs. -/
structure MessageContent where
  content : String
deriving DecidableEq, Repr

/-- `Choice` from src/api/openai.rs. -/
structure Choice where
  message : MessageContent
deriving DecidableEq, Repr

/-- `ChatCompletionResponse` from src/api/openai.rs. -/
structure ChatCompletionResponse where
  choices : List Choice
deriving DecidableEq, Repr

/-- `Delta` from src/api/openai.rs (streaming). -/
structure Delta where
  content : Option String
deriving DecidableEq, Repr

/-- `StreamChoice` from src/api/openai.rs (streaming). -/
structure StreamChoice where
  delta : Delta
deriving DecidableEq, Repr

/-- `StreamChunk` from src/api/openai.rs (streaming). -/
structure StreamChunk where
  choices : List StreamChoice
deriving DecidableEq, Repr

/-- The network environment of one `correct_text_openai` call: the `.send()`
outcome, the `response.json()` outcome (batch path), the byte-stream chunks
(streaming path) and the serde decode of one SSE data line. -/
structure Net where
  send : Except SendErr SendOk
  bodyJson : Except String ChatCompletionResponse
  chunks : List (Except String String)
  parseChunk : String → Option StreamChunk

/-- The `map_err` closure on `.send()` in src/api/openai.rs (both batch and
streaming use the same mapping and the same `DEFAULT_TIMEOUT` message). -/
def mapSendErr : SendErr → ApiError
  | SendErr.timedOut =>
    ApiError.Timeout ("Request timed out after " ++ toString DEFAULT_TIMEOUT ++ "s")
  | SendErr.connectFailed m => ApiError.Connection m
  | SendErr.otherFailed m => ApiError.Response m

/-- The client `correct_text_openai` builds inline (src/api/openai.rs lines
73-77): timeout `DEFAULT_TIMEOUT`, connect timeout `CONNECTION_TIMEOUT`;
the same client is used for both batch and streaming. -/
def clientFor (_streaming : Bool) : ClientCfg :=
  { timeoutSecs := some DEFAULT_TIMEOUT
    connectTimeoutSecs := some CONNECTION_TIMEOUT
    readTimeoutSecs := none }

/-- `batch_openai_request` from src/api/openai.rs: non-2xx and parse failures
become Response errors; otherwise the first choice's `message.content` is
returned unchanged (no trim), and an empty `choices` list is an error. -/
def batch_openai_request (net : Net) : Except ApiError String :=
  match net.send with
  | Except.error e => Except.error (mapSendErr e)
  | Except.ok resp =>
    if !(statusIsSuccess resp.status) then
      Except.error (ApiError.Response ("HTTP " ++ toString resp.status ++ ": " ++ resp.bodyText))
    else
      match net.bodyJson with
      | Except.error e => Except.error (ApiError.Response ("Failed to parse response: " ++ e))
      | Except.ok completion =>
        match completion.choices.head? with
        | some choice => Except.ok choice.message.content
        | none => Except.error (ApiError.Response "No choices in response")

/-- Classification of one SSE line in the streaming loop of
src/api/openai.rs: a `data: ` line whose payload trims to `[DONE]` breaks the
loop; a payload that decodes as a `StreamChunk` whose first choice carries
`delta.content` emits that content; everything else is skipped. -/
def lineAct (parseChunk : String → Option StreamChunk) (line : String) : LineAct :=
  if rustStartsWith line "data: " then
    let data := rustDrop line 6
    if rustTrim data = "[DONE]" then LineAct.stop
    else
      match parseChunk data with
      | some cd =>
        match cd.choices.head? with
        | some choice =>
          match choice.delta.content with
          | some content => LineAct.emit [content]
          | none => LineAct.skip
        | none => LineAct.skip
      | none => LineAct.skip
  else LineAct.skip

/-- `stream_openai_request` from src/api/openai.rs: after a successful send
with a 2xx status, the chunk/line loops accumulate `collected_text`; an empty
accumulator is a Response error, otherwise the trimmed accumulator is
returned. There is no chunk callback in this adapter. -/
def stream_openai_request (net : Net) : Except ApiError String :=
  match net.send with
  | Except.error e => Except.error (mapSendErr e)
  | Except.ok resp =>
    if !(statusIsSuccess resp.status) then
      Except.error (ApiError.Response ("HTTP " ++ toString resp.status ++ ": " ++ resp.bodyText))
    else
      match chunksLoopNoCb (lineAct net.parseChunk) net.chunks "" with
      | Except.error e => Except.error (ApiError.Response e)
      | Except.ok collected =>
        if rustIsEmpty collected then
          Except.error (ApiError.Response "No content in streaming response")
        else Except.ok (rustTrim collected)

/-- `correct_text_openai` from src/api/openai.rs: the three eager validation
checks in source order, then dispatch to the streaming or batch request.
The second component records whether the network phase was entered. -/
def correct_text_openai (api_key model text_to_correct : String)
    (_instruction_prompt _system_prompt : String) (streaming : Bool) (net : Net) :
    Except ApiError String × Bool :=
  if rustIsEmpty api_key then (Except.error (ApiError.Response "API key is empty"), false)
  else if rustIsEmpty model then (Except.error (ApiError.Response "Model is empty"), false)
  else if rustIsEmpty text_to_correct then
    (Except.error (ApiError.Response "Text to correct is empty"), false)
  else if streaming then (stream_openai_request net, true)
  else (batch_openai_request net, true)

end OpenAI

namespace Anthropic

/-- `ContentBlock` from src/api/anthropic.rs: the tagged enum with its single
`Text` variant. -/
inductive ContentBlock where
  | Text (text : String) : ContentBlock
deriving DecidableEq, Repr

/-- `MessagesResponse` from src/api/anthropic.rs. -/
structure MessagesResponse where
  content : List ContentBlock
deriving DecidableEq, Repr

/-- `StreamDelta` from src/api/anthropic.rs. -/
structure StreamDelta where
  delta_type : Option String
  text : Option String
deriving DecidableEq, Repr

/-- `StreamEvent` from src/api/anthropic.rs. -/
structure StreamEvent where
  event_type : String
  delta : Option StreamDelta
deriving DecidableEq, Repr

/-- The network environment of one `correct_text_anthropic_with_callback`
call: `.send()` outcome, `response.json()` outcome (batch branch), the
byte-stream chunks (streaming branch) and the serde decode of one SSE line. -/
structure Net where
  send : Except SendErr SendOk
  bodyJson : Except String MessagesResponse
  chunks : List (Except String String)
  parseEvent : String → Option StreamEvent

/-- The `map_err` closure on `.send()` in src/api/anthropic.rs; the timeout
message uses `DEFAULT_TIMEOUT`. -/
def mapSendErr : SendErr → ApiError
  | SendErr.timedOut =>
    ApiError.Timeout ("Request timed out after " ++ toString DEFAULT_TIMEOUT ++ "s")
  | SendErr.connectFailed m => ApiError.Connection m
  | SendErr.otherFailed m => ApiError.Response m

/-- src/api/anthropic.rs always uses `get_client()` (the `SHARED_CLIENT`),
for streaming and batch alike. -/
def clientFor (_streaming : Bool) : ClientCfg := SHARED_CLIENT

/-- Classification of one SSE line in the streaming branch of
src/api/anthropic.rs: a `data: ` line decoding to an event of type
`content_block_delta` whose delta carries `text` emits that text; no
`[DONE]` sentinel is checked. -/
def lineAct (parseEvent : String → Option StreamEvent) (line : String) : LineAct :=
  if rustStartsWith line "data: " then
    let data := rustDrop line 6
    match parseEvent data with
    | some event =>
      if event.event_type = "content_block_delta" then
        match event.delta with
        | some d =>
          match d.text with
          | some t => LineAct.emit [t]
          | none => LineAct.skip
        | none => LineAct.skip
      else LineAct.skip
    | none => LineAct.skip
  else LineAct.skip

/-- The streaming branch of `correct_text_anthropic_with_callback`
(src/api/anthropic.rs lines 129-163): the chunk/line loops accumulate
`collected_text`, every emitted fragment is also passed to `on_chunk`; an
empty accumulator is a Response error, otherwise the trimmed accumulator is
returned. The second component lists the callback arguments in order. -/
def streamingBranch (parseEvent : String → Option StreamEvent)
    (chunks : List (Except String String)) : Except ApiError String × List String :=
  streamFinish (chunksLoop (lineAct parseEvent) chunks "" [])

/-- The batch branch of `correct_text_anthropic_with_callback`
(src/api/anthropic.rs lines 164-176): parse the envelope, return the first
`Text` block's text unchanged (no trim); no block is a Response error. -/
def batchBranch (bodyJson : Except String MessagesResponse) : Except ApiError String :=
  match bodyJson with
  | Except.error e => Except.error (ApiError.Response ("Failed to parse response: " ++ e))
  | Except.ok completion =>
    match completion.content.findSome? (fun b => match b with | ContentBlock.Text t => some t) with
    | some t => Except.ok t
    | none => Except.error (ApiError.Response "No text content in response")

/-- `correct_text_anthropic_with_callback` from src/api/anthropic.rs: the
three eager validation checks in source order, one send (shared by both
modes), the non-2xx check, then the streaming or batch branch. The result
pairs the outcome with the chunk-callback argument list; the final component
records whether the network phase was entered. -/
def correct_text_anthropic_with_callback (api_key model text_to_correct : String)
    (_instruction_prompt _system_prompt : String) (streaming : Bool) (net : Net) :
    (Except ApiError String × List String) × Bool :=
  if rustIsEmpty api_key then ((Except.error (ApiError.Response "API key is empty"), []), false)
  else if rustIsEmpty model then ((Except.error (ApiError.Response "Model is empty"), []), false)
  else if rustIsEmpty text_to_correct then
    ((Except.error (ApiError.Response "Text to correct is empty"), []), false)
  else
    match net.send with
    | Except.error e => ((Except.error (mapSendErr e), []), true)
    | Except.ok resp =>
      if !(statusIsSuccess resp.status) then
        ((Except.error
            (ApiError.Response ("HTTP " ++ toString resp.status ++ ": " ++ resp.bodyText)), []),
          true)
      else if streaming then (streamingBranch net.parseEvent net.chunks, true)
      else ((batchBranch net.bodyJson, []), true)

end Anthropic

namespace DeepSeek

/-- `MessageContent` from src/api/deepseek.rs. -/
structure MessageContent where
  content : String
deriving DecidableEq, Repr

/-- `Choice` from src/api/deepseek.rs. -/
structure Choice where
  message : MessageContent
deriving DecidableEq, Repr

/-- `ChatCompletionResponse` from src/api/deepseek.rs. -/
structure ChatCompletionResponse where
  choices : List Choice
deriving DecidableEq, Repr

/-- `Delta` from src/api/deepseek.rs (streaming). -/
structure Delta where
  content : Option String
deriving DecidableEq, Repr

/-- `StreamChoice` from src/api/deepseek.rs (streaming). -/
structure StreamChoice where
  delta : Delta
deriving DecidableEq, Repr

/-- `StreamChunk` from src/api/deepseek.rs (streaming). -/
structure StreamChunk where
  choices : List StreamChoice
deriving DecidableEq, Repr

/-- The network environment of one `correct_text_deepseek_with_callback`
call. -/
structure Net where
  send : Except SendErr SendOk
  bodyJson : Except String ChatCompletionResponse
  chunks : List (Except String String)
  parseChunk : String → Option StreamChunk

/-- The `map_err` closure on `.send()` in src/api/deepseek.rs; the timeout
message uses `DEEPSEEK_TIMEOUT` (35 s). -/
def mapSendErr : SendErr → ApiError
  | SendErr.timedOut =>
    ApiError.Timeout ("Request timed out after " ++ toString DEEPSEEK_TIMEOUT ++ "s")
  | SendErr.connectFailed m => ApiError.Connection m
  | SendErr.otherFailed m => ApiError.Response m

/-- src/api/deepseek.rs line 89: `get_streaming_client()` when streaming,
`get_client()` otherwise. -/
def clientFor (streaming : Bool) : ClientCfg :=
  if streaming then STREAMING_CLIENT else SHARED_CLIENT

/-- Classification of one SSE line in the streaming branch of
src/api/deepseek.rs: `[DONE]` breaks; a decoded chunk whose first choice
carries `delta.content` emits that content (the callback receives it too). -/
def lineAct (parseChunk : String → Option StreamChunk) (line : String) : LineAct :=
  if rustStartsWith line "data: " then
    let data := rustDrop line 6
    if rustTrim data = "[DONE]" then LineAct.stop
    else
      match parseChunk data with
      | some cd =>
        match cd.choices.head? with
        | some choice =>
          match choice.delta.content with
          | some content => LineAct.emit [content]
          | none => LineAct.skip
        | none => LineAct.skip
      | none => LineAct.skip
  else LineAct.skip

/-- The streaming branch of `correct_text_deepseek_with_callback`
(src/api/deepseek.rs lines 135-171). -/
def streamingBranch (parseChunk : String → Option StreamChunk)
    (chunks : List (Except String String)) : Except ApiError String × List String :=
  streamFinish (chunksLoop (lineAct parseChunk) chunks "" [])

/-- The batch branch of `correct_text_deepseek_with_callback`
(src/api/deepseek.rs lines 172-182): the first choice's content is trimmed;
an empty `choices` list is a Response error. -/
def batchBranch (bodyJson : Except String ChatCompletionResponse) : Except ApiError String :=
  match bodyJson with
  | Except.error e => Except.error (ApiError.Response ("Failed to parse response: " ++ e))
  | Except.ok completion =>
    match completion.choices.head? with
    | some choice => Except.ok (rustTrim choice.message.content)
    | none => Except.error (ApiError.Response "No choices in response")

/-- `correct_text_deepseek_with_callback` from src/api/deepseek.rs: eager
validation in source order, client choice, one send, the non-2xx check, then
the streaming or batch branch. -/
def correct_text_deepseek_with_callback (api_key model text_to_correct : String)
    (_instruction_prompt _system_prompt : String) (streaming : Bool) (net : Net) :
    (Except ApiError String × List String) × Bool :=
  if rustIsEmpty api_key then ((Except.error (ApiError.Response "API key is empty"), []), false)
  else if rustIsEmpty model then ((Except.error (ApiError.Response "Model is empty"), []), false)
  else if rustIsEmpty text_to_correct then
    ((Except.error (ApiError.Response "Text to correct is empty"), []), false)
  else
    match net.send with
    | Except.error e => ((Except.error (mapSendErr e), []), true)
    | Except.ok resp =>
      if !(statusIsSuccess resp.status) then
        ((Except.error
            (ApiError.Response ("HTTP " ++ toString resp.status ++ ": " ++ resp.bodyText)), []),
          true)
      else if streaming then (streamingBranch net.parseChunk net.chunks, true)
      else ((batchBranch net.bodyJson, []), true)

end DeepSeek

namespace Gemini

/-- `ContentPart` from src/api/gemini.rs. -/
structure ContentPart where
  text : Option String
deriving DecidableEq, Repr

/-- `CandidateContent` from src/api/gemini.rs. -/
structure CandidateContent where
  parts : Option (List ContentPart)
deriving DecidableEq, Repr

/-- `Candidate` from src/api/gemini.rs. -/
structure Candidate where
  content : Option CandidateContent
deriving DecidableEq, Repr

/-- `GeminiResponse` from src/api/gemini.rs. -/
structure GeminiResponse where
  candidates : Option (List Candidate)
deriving DecidableEq, Repr

/-- The network environment of one `correct_text_gemini_with_callback`
call. -/
structure Net where
  send : Except SendErr SendOk
  bodyJson : Except String GeminiResponse
  chunks : List (Except String String)
  parseResp : String → Option GeminiResponse

/-- The `map_err` closure on `.send()` in src/api/gemini.rs (both mode
functions use the same mapping, with `DEFAULT_TIMEOUT` in the message). -/
def mapSendErr : SendErr → ApiError
  | SendErr.timedOut =>
    ApiError.Timeout ("Request timed out after " ++ toString DEFAULT_TIMEOUT ++ "s")
  | SendErr.connectFailed m => ApiError.Connection m
  | SendErr.otherFailed m => ApiError.Response m

/-- src/api/gemini.rs line 100: `get_streaming_client()` when streaming,
`get_client()` otherwise. -/
def clientFor (streaming : Bool) : ClientCfg :=
  if streaming then STREAMING_CLIENT else SHARED_CLIENT

/-- Classification of one SSE line in `stream_gemini_request_with_callback`:
`[DONE]` breaks; a decoded response's first candidate's parts emit their
non-empty texts in order (each is also passed to the callback). -/
def lineAct (parseResp : String → Option GeminiResponse) (line : String) : LineAct :=
  if rustStartsWith line "data: " then
    let data := rustDrop line 6
    if rustTrim data = "[DONE]" then LineAct.stop
    else
      match parseResp data with
      | some r =>
        match r.candidates with
        | some cands =>
          match cands.head? with
          | some cand =>
            match cand.content with
            | some content =>
              match content.parts with
              | some parts =>
                LineAct.emit (parts.filterMap fun part =>
                  match part.text with
                  | some t => if rustIsEmpty t then none else some t
                  | none => none)
              | none => LineAct.skip
            | none => LineAct.skip
          | none => LineAct.skip
        | none => LineAct.skip
      | none => LineAct.skip
  else LineAct.skip

/-- `stream_gemini_request_with_callback` from src/api/gemini.rs (after the
send and the non-2xx check, which the composed function below performs). -/
def streamingBranch (parseResp : String → Option GeminiResponse)
    (chunks : List (Except String String)) : Except ApiError String × List String :=
  streamFinish (chunksLoop (lineAct parseResp) chunks "" [])

/-- The tail of `batch_gemini_request` from src/api/gemini.rs: the
option-chain through candidates, content, parts and text; a found text is
trimmed, a broken chain is a Response error. -/
def batchBranch (bodyJson : Except String GeminiResponse) : Except ApiError String :=
  match bodyJson with
  | Except.error e => Except.error (ApiError.Response ("Failed to parse response: " ++ e))
  | Except.ok completion =>
    match (((completion.candidates.bind fun c => c.head?).bind fun c => c.content).bind
        fun c => c.parts).bind fun p => (p.head?.bind fun part => part.text) with
    | some t => Except.ok (rustTrim t)
    | none => Except.error (ApiError.Response "No text content in response")

/-- `correct_text_gemini_with_callback` from src/api/gemini.rs: eager
validation in source order, client choice, then `stream_gemini_request_with_callback`
or `batch_gemini_request` (each does its own send and non-2xx check; the
send outcome is shared here since exactly one of them runs). -/
def correct_text_gemini_with_callback (api_key model text_to_correct : String)
    (_instruction_prompt _system_prompt : String) (streaming : Bool) (net : Net) :
    (Except ApiError String × List String) × Bool :=
  if rustIsEmpty api_key then ((Except.error (ApiError.Response "API key is empty"), []), false)
  else if rustIsEmpty model then ((Except.error (ApiError.Response "Model is empty"), []), false)
  else if rustIsEmpty text_to_correct then
    ((Except.error (ApiError.Response "Text to correct is empty"), []), false)
  else
    match net.send with
    | Except.error e => ((Except.error (mapSendErr e), []), true)
    | Except.ok resp =>
      if !(statusIsSuccess resp.status) then
        ((Except.error
            (ApiError.Response ("HTTP " ++ toString resp.status ++ ": " ++ resp.bodyText)), []),
          true)
      else if streaming then (streamingBranch net.parseResp net.chunks, true)
      else ((batchBranch net.bodyJson, []), true)

end Gemini

namespace App

/-- `u64` modulus: the session counter is an `AtomicU64` and `fetch_add`
wraps. -/
def U64 : Nat := 2 ^ 64

/-- The coordination state of `AppState` in src/app.rs: the `session_id`
atomic counter and the four per-provider `cancel_flags`. -/
structure AppCore where
  sessionId : Nat
  cancelFlags : Fin 4 → Bool
deriving DecidableEq

/-- Initial `AppState` (src/app.rs lines 146-147): counter 0, all flags
false. -/
def initCore : AppCore := { sessionId := 0, cancelFlags := fun _ => false }

/-- `prepare_processing_session` from src/app.rs (lines 778-814), restricted
to the coordination state: `session_id.fetch_add(1)` (wrapping) bumps the
counter, every cancellation flag is reset to false, and the new session value
(`old + 1`, the value the spawned tasks are tagged with) is returned. -/
def prepare_processing_session (st : AppCore) : AppCore × Nat :=
  let sess := (st.sessionId + 1) % U64
  ({ sessionId := sess, cancelFlags := fun _ => false }, sess)

/-- `cancel_all_processing` from src/app.rs (lines 634-660), restricted to
the coordination state: every flag is set true; the session counter is not
touched. -/
def cancel_all_processing (st : AppCore) : AppCore :=
  { st with cancelFlags := fun _ => true }

/-- `cancel_single_api` from src/app.rs (lines 534-551), restricted to the
coordination state: the one flag is set true. -/
def cancel_single_api (st : AppCore) (i : Fin 4) : AppCore :=
  { st with cancelFlags := Function.update st.cancelFlags i true }

/-- Externally visible effects of one spawned provider task in
`process_with_apis` (src/app.rs lines 836-874). -/
inductive TaskEvent where
  | networkCall : TaskEvent
  | sendResult : TaskEvent
deriving DecidableEq, Repr

/-- The event trace of one spawned task in `process_with_apis`: the adapter
is called unconditionally (its network request happens whenever the eager
validation passes — `validationPasses`); then the task reads its cancel flag
once (`flagAtCheck` is the value observed) and sends the result on the
channel only if the flag is clear. No flag or session check precedes the
network call. -/
def spawned_task_events (validationPasses flagAtCheck : Bool) : List TaskEvent :=
  (if validationPasses then [TaskEvent.networkCall] else []) ++
    (if flagAtCheck then [] else [TaskEvent.sendResult])

/-- Remove the first occurrence of a task from an in-flight task list. -/
def removeFirst : List (Fin 4 × Nat) → (Fin 4 × Nat) → List (Fin 4 × Nat)
  | [], _ => []
  | x :: xs, y => if x = y then xs else x :: removeFirst xs y

/-- Global state of the dispatch system: the coordination core, the in-flight
provider tasks (provider index, session they were spawned for), the channel
queue of sent results awaiting the relay, and the log of results the relay
has delivered to `update_panel_result` — each entry records the provider, the
session the result originated from, and the current counter value at
acceptance time. -/
structure SysSt where
  core : AppCore
  tasks : List (Fin 4 × Nat)
  queue : List (Fin 4 × Nat)
  displayed : List (Fin 4 × Nat × Nat)
deriving DecidableEq

/-- Initial system state. -/
def initSys : SysSt := { core := initCore, tasks := [], queue := [], displayed := [] }

/-- Atomic actions of the dispatch system, mirroring src/app.rs:
`newSession` is `prepare_processing_session` followed by the four
`tokio::spawn`s of `process_with_apis`; `cancelAll`/`cancelOne` are the
cancel handlers; `finishTask i s` is a task spawned for session `s` whose
adapter call completes now — per lines 871-873 it sends its result iff its
cancel flag is clear at that moment; `deliver` is one iteration of the relay
loop (lines 879-881): the received result is passed to `update_panel_result`,
which updates the panel unconditionally — its `_session` parameter is
ignored. -/
inductive Act where
  | newSession : Act
  | cancelAll : Act
  | cancelOne (i : Fin 4) : Act
  | finishTask (i : Fin 4) (s : Nat) : Act
  | deliver : Act

/-- One step of the dispatch system. -/
def step (st : SysSt) : Act → SysSt
  | Act.newSession =>
    let p := prepare_processing_session st.core
    { st with
      core := p.1
      tasks := st.tasks ++ (List.finRange 4).map fun i => (i, p.2) }
  | Act.cancelAll => { st with core := cancel_all_processing st.core }
  | Act.cancelOne i => { st with core := cancel_single_api st.core i }
  | Act.finishTask i s =>
    if (i, s) ∈ st.tasks then
      let tasks' := removeFirst st.tasks (i, s)
      if st.core.cancelFlags i then { st with tasks := tasks' }
      else { st with tasks := tasks', queue := st.queue ++ [(i, s)] }
    else st
  | Act.deliver =>
    match st.queue with
    | [] => st
    | (i, s) :: rest =>
      { st with
        queue := rest
        displayed := st.displayed ++ [(i, s, st.core.sessionId)] }

/-- Run a list of actions from a state. -/
def runActs (st : SysSt) (acts : List Act) : SysSt := acts.foldl step st

/-- The acceptance invariant claimed by the spec: every result delivered to
the panel originated from the session that was current at acceptance time. -/
def sessionAcceptInvariant (st : SysSt) : Prop :=
  ∀ e ∈ st.displayed, e.2.1 = e.2.2

instance (st : SysSt) : Decidable (sessionAcceptInvariant st) := by
  unfold sessionAcceptInvariant; infer_instance

end App

/-! ### Helper lemmas -/

theorem rustIsEmpty_iff (s : String) : rustIsEmpty s = true ↔ s = "" := by
  cases s with
  | mk data =>
    simp only [rustIsEmpty, List.isEmpty_iff]
    constructor
    · intro h; subst h; rfl
    · intro h
      have : (String.mk data).data = ("" : String).data := congrArg String.data h
      simpa using this

theorem join_append (a b : List String) :
    String.join (a ++ b) = String.join a ++ String.join b := by
  simp only [String.join_eq, List.map_append, List.flatten_append]
  rfl

/-- The line loop preserves "accumulator = concatenation of the callback
arguments so far". -/
theorem linesLoop_inv (f : String → LineAct) (lines : List String) :
    ∀ (acc : String) (cbs : List String), acc = String.join cbs →
      (linesLoop f lines acc cbs).1 = String.join (linesLoop f lines acc cbs).2 := by
  induction lines with
  | nil => intro acc cbs h; simpa [linesLoop] using h
  | cons line rest ih =>
    intro acc cbs h
    simp only [linesLoop]
    cases hf : f line with
    | skip => exact ih acc cbs h
    | stop => simpa using h
    | emit ts => exact ih _ _ (by rw [h, join_append])

/-- The chunk loop preserves the same invariant when it terminates without a
transport error. -/
theorem chunksLoop_inv (f : String → LineAct) (chunks : List (Except String String)) :
    ∀ (acc : String) (cbs : List String), acc = String.join cbs →
      ∀ (collected : String) (cbs2 : List String),
        chunksLoop f chunks acc cbs = (Except.ok collected, cbs2) →
        collected = String.join cbs2 := by
  induction chunks with
  | nil =>
    intro acc cbs h collected cbs2 hr
    simp only [chunksLoop, Prod.mk.injEq, Except.ok.injEq] at hr
    rw [← hr.1, ← hr.2]; exact h
  | cons c rest ih =>
    intro acc cbs h collected cbs2 hr
    cases c with
    | error e => simp [chunksLoop] at hr
    | ok s =>
      simp only [chunksLoop] at hr
      exact ih _ _ (linesLoop_inv f (rustLines s) acc cbs h) collected cbs2 hr

/-! ### Claim theorems: session/cancellation core (C1, C2, C3, C9) -/

/-- C1: the spec claims a provider result is accepted and displayed only if
its originating session equals the current session counter value at
acceptance time. The code violates this: after two back-to-back
`prepare_processing_session` calls (which reset all cancel flags), a task
spawned for session 1 that completes afterwards finds its flag clear, sends
its result, and the relay's `update_panel_result` displays it while the
current session is 2 — the `_session` parameter of `update_panel_result` is
never compared. -/
theorem c1_stale_session_result_displayed :
    (App.runActs App.initSys
        [App.Act.newSession, App.Act.newSession,
          App.Act.finishTask 0 1, App.Act.deliver]).displayed = [(0, 1, 2)] ∧
      ¬ App.sessionAcceptInvariant (App.runActs App.initSys
        [App.Act.newSession, App.Act.newSession,
          App.Act.finishTask 0 1, App.Act.deliver]) := by
  exact ⟨by decide, by decide⟩

/-- C2 counterexample: `cancel_all_processing` does not increment the session
counter — from a state with counter 7 the counter is still 7 (not 8)
afterwards, so the claim "cancel-all ... also increments (bumps) the session
counter" is false of the code. -/
theorem c2_counterexample :
    (App.cancel_all_processing { sessionId := 7, cancelFlags := fun _ => false }).sessionId = 7 ∧
      (7 : Nat) ≠ (7 + 1) % App.U64 := by
  exact ⟨rfl, by decide⟩

/-- C2 (amended): `cancel_all_processing` sets every one of the four
per-provider cancellation flags to true but leaves the session counter
unchanged; only `prepare_processing_session` bumps the counter. -/
theorem c2_cancel_all_flags_session (st : App.AppCore) :
    (∀ i, (App.cancel_all_processing st).cancelFlags i = true) ∧
      (App.cancel_all_processing st).sessionId = st.sessionId :=
  ⟨fun _ => rfl, rfl⟩

/-- C3 counterexample: a spawned task whose cancellation flag is already set
(and stays set) still performs its network call — the event trace is
`[networkCall]`, not the empty trace the claim requires for an
already-cancelled task. -/
theorem c3_counterexample :
    App.spawned_task_events true true = [App.TaskEvent.networkCall] ∧
      App.spawned_task_events true true ≠ ([] : List App.TaskEvent) := by
  exact ⟨rfl, by decide⟩

/-- C3 (amended): a spawned provider task consults its cancellation flag only
once, after the adapter call completes and immediately before sending the
result: the network call happens exactly when validation passes, regardless
of the flag, and the result-send event happens exactly when the flag observed
at that single post-call check is clear. -/
theorem c3_flag_checked_only_after_call :
    ∀ v f : Bool,
      (App.TaskEvent.networkCall ∈ App.spawned_task_events v f ↔ v = true) ∧
        (App.TaskEvent.sendResult ∈ App.spawned_task_events v f ↔ f = false) := by
  decide

/-- C9: two successive `prepare_processing_session` calls return strictly
increasing session identifiers (as long as the 64-bit counter does not wrap). -/
theorem c9_session_monotonic (st : App.AppCore) (h : st.sessionId + 2 < App.U64) :
    (App.prepare_processing_session st).2
      < (App.prepare_processing_session (App.prepare_processing_session st).1).2 := by
  have hU : App.U64 = 18446744073709551616 := by norm_num [App.U64]
  rw [hU] at h
  have h1 : (st.sessionId + 1) % App.U64 = st.sessionId + 1 := by
    rw [hU]; exact Nat.mod_eq_of_lt (by omega)
  simp only [App.prepare_processing_session, h1]
  rw [hU, Nat.mod_eq_of_lt (by omega)]
  omega

/-- Witness for C9 at the initial state (counter 0): the two calls return 1
and 2. -/
theorem c9_session_monotonic_witness :
    App.initCore.sessionId + 2 < App.U64 ∧
      (App.prepare_processing_session App.initCore).2
        < (App.prepare_processing_session (App.prepare_processing_session App.initCore).1).2 :=
  ⟨by decide, c9_session_monotonic App.initCore (by decide)⟩

/-! ### Claim theorems: eager validation (C4, C10) -/

/-- A benign sample network environment for the OpenAI adapter, used by the
witnesses. -/
def sampleNetO : OpenAI.Net :=
  { send := Except.ok ⟨200, ""⟩, bodyJson := Except.ok ⟨[]⟩, chunks := [],
    parseChunk := fun _ => none }

/-- A benign sample network environment for the Anthropic adapter. -/
def sampleNetA : Anthropic.Net :=
  { send := Except.ok ⟨200, ""⟩, bodyJson := Except.ok ⟨[]⟩, chunks := [],
    parseEvent := fun _ => none }

/-- A benign sample network environment for the Gemini adapter. -/
def sampleNetG : Gemini.Net :=
  { send := Except.ok ⟨200, ""⟩, bodyJson := Except.ok ⟨none⟩, chunks := [],
    parseResp := fun _ => none }

/-- A benign sample network environment for the DeepSeek adapter. -/
def sampleNetD : DeepSeek.Net :=
  { send := Except.ok ⟨200, ""⟩, bodyJson := Except.ok ⟨[]⟩, chunks := [],
    parseChunk := fun _ => none }

theorem openai_validation_rejects (k m t ip sp : String) (b : Bool) (net : OpenAI.Net)
    (h : rustIsEmpty k = true ∨ rustIsEmpty m = true ∨ rustIsEmpty t = true) :
    (∃ msg, (OpenAI.correct_text_openai k m t ip sp b net).1
        = Except.error (ApiError.Response msg)) ∧
      (OpenAI.correct_text_openai k m t ip sp b net).2 = false := by
  unfold OpenAI.correct_text_openai
  by_cases hk : rustIsEmpty k = true
  · simp [hk]
  · by_cases hm : rustIsEmpty m = true
    · simp [hk, hm]
    · have ht : rustIsEmpty t = true := by rcases h with h | h | h <;> simp_all
      simp [hk, hm, ht]

theorem anthropic_validation_rejects (k m t ip sp : String) (b : Bool) (net : Anthropic.Net)
    (h : rustIsEmpty k = true ∨ rustIsEmpty m = true ∨ rustIsEmpty t = true) :
    (∃ msg, (Anthropic.correct_text_anthropic_with_callback k m t ip sp b net).1.1
        = Except.error (ApiError.Response msg)) ∧
      (Anthropic.correct_text_anthropic_with_callback k m t ip sp b net).2 = false := by
  unfold Anthropic.correct_text_anthropic_with_callback
  by_cases hk : rustIsEmpty k = true
  · simp [hk]
  · by_cases hm : rustIsEmpty m = true
    · simp [hk, hm]
    · have ht : rustIsEmpty t = true := by rcases h with h | h | h <;> simp_all
      simp [hk, hm, ht]

theorem gemini_validation_rejects (k m t ip sp : String) (b : Bool) (net : Gemini.Net)
    (h : rustIsEmpty k = true ∨ rustIsEmpty m = true ∨ rustIsEmpty t = true) :
    (∃ msg, (Gemini.correct_text_gemini_with_callback k m t ip sp b net).1.1
        = Except.error (ApiError.Response msg)) ∧
      (Gemini.correct_text_gemini_with_callback k m t ip sp b net).2 = false := by
  unfold Gemini.correct_text_gemini_with_callback
  by_cases hk : rustIsEmpty k = true
  · simp [hk]
  · by_cases hm : rustIsEmpty m = true
    · simp [hk, hm]
    · have ht : rustIsEmpty t = true := by rcases h with h | h | h <;> simp_all
      simp [hk, hm, ht]

theorem deepseek_validation_rejects (k m t ip sp : String) (b : Bool) (net : DeepSeek.Net)
    (h : rustIsEmpty k = true ∨ rustIsEmpty m = true ∨ rustIsEmpty t = true) :
    (∃ msg, (DeepSeek.correct_text_deepseek_with_callback k m t ip sp b net).1.1
        = Except.error (ApiError.Response msg)) ∧
      (DeepSeek.correct_text_deepseek_with_callback k m t ip sp b net).2 = false := by
  unfold DeepSeek.correct_text_deepseek_with_callback
  by_cases hk : rustIsEmpty k = true
  · simp [hk]
  · by_cases hm : rustIsEmpty m = true
    · simp [hk, hm]
    · have ht : rustIsEmpty t = true := by rcases h with h | h | h <;> simp_all
      simp [hk, hm, ht]

/-- C4: for each of the four provider adapters, calling the correction
function with an empty API credential, an empty model identifier or an empty
source text returns a Response-classified error, and the network phase is
never entered. -/
theorem c4_validation_before_network (k m t ip sp : String) (b : Bool)
    (no : OpenAI.Net) (na : Anthropic.Net) (ng : Gemini.Net) (nd : DeepSeek.Net)
    (h : rustIsEmpty k = true ∨ rustIsEmpty m = true ∨ rustIsEmpty t = true) :
    ((∃ msg, (OpenAI.correct_text_openai k m t ip sp b no).1
        = Except.error (ApiError.Response msg)) ∧
      (OpenAI.correct_text_openai k m t ip sp b no).2 = false) ∧
    ((∃ msg, (Anthropic.correct_text_anthropic_with_callback k m t ip sp b na).1.1
        = Except.error (ApiError.Response msg)) ∧
      (Anthropic.correct_text_anthropic_with_callback k m t ip sp b na).2 = false) ∧
    ((∃ msg, (Gemini.correct_text_gemini_with_callback k m t ip sp b ng).1.1
        = Except.error (ApiError.Response msg)) ∧
      (Gemini.correct_text_gemini_with_callback k m t ip sp b ng).2 = false) ∧
    ((∃ msg, (DeepSeek.correct_text_deepseek_with_callback k m t ip sp b nd).1.1
        = Except.error (ApiError.Response msg)) ∧
      (DeepSeek.correct_text_deepseek_with_callback k m t ip sp b nd).2 = false) :=
  ⟨openai_validation_rejects k m t ip sp b no h,
    anthropic_validation_rejects k m t ip sp b na h,
    gemini_validation_rejects k m t ip sp b ng h,
    deepseek_validation_rejects k m t ip sp b nd h⟩

/-- Witness for C4: an empty credential with non-empty model and text. -/
theorem c4_validation_before_network_witness :
    (rustIsEmpty "" = true ∨ rustIsEmpty "gpt-4" = true ∨ rustIsEmpty "txt" = true) ∧
      ((∃ msg, (OpenAI.correct_text_openai "" "gpt-4" "txt" "i" "s" false sampleNetO).1
          = Except.error (ApiError.Response msg)) ∧
        (OpenAI.correct_text_openai "" "gpt-4" "txt" "i" "s" false sampleNetO).2 = false) ∧
      ((∃ msg, (Anthropic.correct_text_anthropic_with_callback
            "" "gpt-4" "txt" "i" "s" false sampleNetA).1.1
          = Except.error (ApiError.Response msg)) ∧
        (Anthropic.correct_text_anthropic_with_callback
            "" "gpt-4" "txt" "i" "s" false sampleNetA).2 = false) ∧
      ((∃ msg, (Gemini.correct_text_gemini_with_callback
            "" "gpt-4" "txt" "i" "s" false sampleNetG).1.1
          = Except.error (ApiError.Response msg)) ∧
        (Gemini.correct_text_gemini_with_callback
            "" "gpt-4" "txt" "i" "s" false sampleNetG).2 = false) ∧
      ((∃ msg, (DeepSeek.correct_text_deepseek_with_callback
            "" "gpt-4" "txt" "i" "s" false sampleNetD).1.1
          = Except.error (ApiError.Response msg)) ∧
        (DeepSeek.correct_text_deepseek_with_callback
            "" "gpt-4" "txt" "i" "s" false sampleNetD).2 = false) :=
  ⟨Or.inl rfl,
    c4_validation_before_network "" "gpt-4" "txt" "i" "s" false
      sampleNetO sampleNetA sampleNetG sampleNetD (Or.inl rfl)⟩

/-- C10: the three validation checks run in a fixed order — credential, then
model, then source text — so with several empty inputs the error reported is
the earliest failing check's, identically in all four adapters. -/
theorem c10_validation_order (k m t ip sp : String) (b : Bool)
    (no : OpenAI.Net) (na : Anthropic.Net) (ng : Gemini.Net) (nd : DeepSeek.Net) :
    (rustIsEmpty k = true →
      (OpenAI.correct_text_openai k m t ip sp b no).1
          = Except.error (ApiError.Response "API key is empty") ∧
        (Anthropic.correct_text_anthropic_with_callback k m t ip sp b na).1.1
          = Except.error (ApiError.Response "API key is empty") ∧
        (Gemini.correct_text_gemini_with_callback k m t ip sp b ng).1.1
          = Except.error (ApiError.Response "API key is empty") ∧
        (DeepSeek.correct_text_deepseek_with_callback k m t ip sp b nd).1.1
          = Except.error (ApiError.Response "API key is empty")) ∧
    (rustIsEmpty k = false → rustIsEmpty m = true →
      (OpenAI.correct_text_openai k m t ip sp b no).1
          = Except.error (ApiError.Response "Model is empty") ∧
        (Anthropic.correct_text_anthropic_with_callback k m t ip sp b na).1.1
          = Except.error (ApiError.Response "Model is empty") ∧
        (Gemini.correct_text_gemini_with_callback k m t ip sp b ng).1.1
          = Except.error (ApiError.Response "Model is empty") ∧
        (DeepSeek.correct_text_deepseek_with_callback k m t ip sp b nd).1.1
          = Except.error (ApiError.Response "Model is empty")) ∧
    (rustIsEmpty k = false → rustIsEmpty m = false → rustIsEmpty t = true →
      (OpenAI.correct_text_openai k m t ip sp b no).1
          = Except.error (ApiError.Response "Text to correct is empty") ∧
        (Anthropic.correct_text_anthropic_with_callback k m t ip sp b na).1.1
          = Except.error (ApiError.Response "Text to correct is empty") ∧
        (Gemini.correct_text_gemini_with_callback k m t ip sp b ng).1.1
          = Except.error (ApiError.Response "Text to correct is empty") ∧
        (DeepSeek.correct_text_deepseek_with_callback k m t ip sp b nd).1.1
          = Except.error (ApiError.Response "Text to correct is empty")) := by
  refine ⟨fun hk => ?_, fun hk hm => ?_, fun hk hm ht => ?_⟩ <;>
    simp [OpenAI.correct_text_openai, Anthropic.correct_text_anthropic_with_callback,
      Gemini.correct_text_gemini_with_callback, DeepSeek.correct_text_deepseek_with_callback,
      *]

/-- Witness for C10: an empty credential together with an empty source text
yields the credential error (the earliest check), in all four adapters. -/
theorem c10_validation_order_witness :
    rustIsEmpty "" = true ∧
      (OpenAI.correct_text_openai "" "gpt-4" "" "i" "s" false sampleNetO).1
          = Except.error (ApiError.Response "API key is empty") ∧
        (Anthropic.correct_text_anthropic_with_callback
            "" "gpt-4" "" "i" "s" false sampleNetA).1.1
          = Except.error (ApiError.Response "API key is empty") ∧
        (Gemini.correct_text_gemini_with_callback "" "gpt-4" "" "i" "s" false sampleNetG).1.1
          = Except.error (ApiError.Response "API key is empty") ∧
        (DeepSeek.correct_text_deepseek_with_callback
            "" "gpt-4" "" "i" "s" false sampleNetD).1.1
          = Except.error (ApiError.Response "API key is empty") :=
  ⟨rfl, (c10_validation_order "" "gpt-4" "" "i" "s" false
    sampleNetO sampleNetA sampleNetG sampleNetD).1 rfl⟩

/-! ### Claim theorems: batch extraction (C5) -/

/-- C5 counterexample: in batch mode the OpenAI adapter returns the first
choice's content *untrimmed* (`"  Hello world  "`, not `"Hello world"`), and
an empty-string content block yields `Ok ""` instead of a Response error —
refuting both halves of the claim for this adapter. -/
theorem c5_counterexample :
    (OpenAI.correct_text_openai "k" "gpt-4" "txt" "i" "s" false
        { send := Except.ok ⟨200, ""⟩, bodyJson := Except.ok ⟨[⟨⟨"  Hello world  "⟩⟩]⟩,
          chunks := [], parseChunk := fun _ => none }).1 = Except.ok "  Hello world  " ∧
      (OpenAI.correct_text_openai "k" "gpt-4" "txt" "i" "s" false
        { send := Except.ok ⟨200, ""⟩, bodyJson := Except.ok ⟨[⟨⟨"  Hello world  "⟩⟩]⟩,
          chunks := [], parseChunk := fun _ => none }).1
        ≠ Except.ok (rustTrim "  Hello world  ") ∧
      (OpenAI.correct_text_openai "k" "gpt-4" "txt" "i" "s" false
        { send := Except.ok ⟨200, ""⟩, bodyJson := Except.ok ⟨[⟨⟨""⟩⟩]⟩,
          chunks := [], parseChunk := fun _ => none }).1 = Except.ok "" := by
  exact ⟨by decide, by decide, by decide⟩

/-- C5 (amended): in batch mode each adapter returns the first textual
content block of the parsed envelope, but only DeepSeek and Gemini trim it —
OpenAI and Anthropic return it unchanged; a response with *no* content block
(empty choices / content / candidates chain) is a Response error, while a
present-but-empty-string block is an Ok result, not an error. -/
theorem c5_batch_first_block :
    (∀ (bt : String) (c : OpenAI.Choice) (cs : List OpenAI.Choice)
        (chunks : List (Except String String)) (pc : String → Option OpenAI.StreamChunk),
        OpenAI.batch_openai_request
          { send := Except.ok ⟨200, bt⟩, bodyJson := Except.ok ⟨c :: cs⟩,
            chunks := chunks, parseChunk := pc }
          = Except.ok c.message.content) ∧
    (∀ (bt : String) (chunks : List (Except String String))
        (pc : String → Option OpenAI.StreamChunk),
        OpenAI.batch_openai_request
          { send := Except.ok ⟨200, bt⟩, bodyJson := Except.ok ⟨[]⟩,
            chunks := chunks, parseChunk := pc }
          = Except.error (ApiError.Response "No choices in response")) ∧
    (∀ (txt : String) (rest : List Anthropic.ContentBlock),
        Anthropic.batchBranch (Except.ok ⟨Anthropic.ContentBlock.Text txt :: rest⟩)
          = Except.ok txt) ∧
    (Anthropic.batchBranch (Except.ok ⟨[]⟩)
        = Except.error (ApiError.Response "No text content in response")) ∧
    (∀ (c : DeepSeek.Choice) (cs : List DeepSeek.Choice),
        DeepSeek.batchBranch (Except.ok ⟨c :: cs⟩)
          = Except.ok (rustTrim c.message.content)) ∧
    (DeepSeek.batchBranch (Except.ok ⟨[]⟩)
        = Except.error (ApiError.Response "No choices in response")) ∧
    (∀ (txt : String) (ps : List Gemini.ContentPart) (cnds : List Gemini.Candidate),
        Gemini.batchBranch (Except.ok ⟨some (⟨some ⟨some (⟨some txt⟩ :: ps)⟩⟩ :: cnds)⟩)
          = Except.ok (rustTrim txt)) ∧
    (Gemini.batchBranch (Except.ok ⟨none⟩)
        = Except.error (ApiError.Response "No text content in response")) :=
  ⟨fun _ _ _ _ _ => rfl, fun _ _ _ => rfl, fun _ _ => rfl, rfl,
    fun _ _ => rfl, rfl, fun _ _ _ => rfl, rfl⟩

/-! ### Claim theorems: empty streaming accumulator (C7) -/

/-- C7 counterexample: a streaming response whose only extracted fragment is
whitespace leaves a non-empty accumulator, so the OpenAI adapter returns
`Ok` of the *trimmed* accumulator — the empty string — contradicting the
claim that an adapter never returns Ok with an empty string. -/
theorem c7_counterexample :
    (OpenAI.correct_text_openai "k" "gpt-4" "txt" "i" "s" true
        { send := Except.ok ⟨200, ""⟩, bodyJson := Except.ok ⟨[]⟩,
          chunks := [Except.ok "data: x"],
          parseChunk := fun s => if s = "x" then some ⟨[⟨⟨some "   "⟩⟩]⟩ else none }).1
      = Except.ok "" := by
  decide

/-- C7 (amended): in streaming mode, when every network chunk is read
successfully, an empty final accumulator (no content fragment extracted)
yields the Response error "No content in streaming response" — never a
silent empty success — while a non-empty accumulator yields Ok of the
trimmed accumulator, which can be the empty string when the accumulator was
whitespace-only. Stated for all four adapters' streaming paths. -/
theorem c7_empty_accumulator_error :
    (∀ (pc : String → Option OpenAI.StreamChunk) (bt : String)
        (bj : Except String OpenAI.ChatCompletionResponse)
        (chunks : List (Except String String)) (collected : String),
        chunksLoopNoCb (OpenAI.lineAct pc) chunks "" = Except.ok collected →
        (collected = "" →
            OpenAI.stream_openai_request
              { send := Except.ok ⟨200, bt⟩, bodyJson := bj, chunks := chunks, parseChunk := pc }
              = Except.error (ApiError.Response "No content in streaming response")) ∧
          (collected ≠ "" →
            OpenAI.stream_openai_request
              { send := Except.ok ⟨200, bt⟩, bodyJson := bj, chunks := chunks, parseChunk := pc }
              = Except.ok (rustTrim collected))) ∧
    (∀ (pe : String → Option Anthropic.StreamEvent) (chunks : List (Except String String))
        (collected : String) (cbs : List String),
        chunksLoop (Anthropic.lineAct pe) chunks "" [] = (Except.ok collected, cbs) →
        (collected = "" → (Anthropic.streamingBranch pe chunks).1
            = Except.error (ApiError.Response "No content in streaming response")) ∧
          (collected ≠ "" → (Anthropic.streamingBranch pe chunks).1
            = Except.ok (rustTrim collected))) ∧
    (∀ (pc : String → Option DeepSeek.StreamChunk) (chunks : List (Except String String))
        (collected : String) (cbs : List String),
        chunksLoop (DeepSeek.lineAct pc) chunks "" [] = (Except.ok collected, cbs) →
        (collected = "" → (DeepSeek.streamingBranch pc chunks).1
            = Except.error (ApiError.Response "No content in streaming response")) ∧
          (collected ≠ "" → (DeepSeek.streamingBranch pc chunks).1
            = Except.ok (rustTrim collected))) ∧
    (∀ (pr : String → Option Gemini.GeminiResponse) (chunks : List (Except String String))
        (collected : String) (cbs : List String),
        chunksLoop (Gemini.lineAct pr) chunks "" [] = (Except.ok collected, cbs) →
        (collected = "" → (Gemini.streamingBranch pr chunks).1
            = Except.error (ApiError.Response "No content in streaming response")) ∧
          (collected ≠ "" → (Gemini.streamingBranch pr chunks).1
            = Except.ok (rustTrim collected))) := by
  refine ⟨?_, ?_, ?_, ?_⟩
  · intro pc bt bj chunks collected ho
    constructor
    · intro hc; subst hc
      simp [OpenAI.stream_openai_request, statusIsSuccess, ho, rustIsEmpty]
    · intro hc
      have hb : rustIsEmpty collected = false := by
        cases hcb : rustIsEmpty collected
        · rfl
        · exact absurd ((rustIsEmpty_iff collected).1 hcb) hc
      simp [OpenAI.stream_openai_request, statusIsSuccess, ho, hb]
  · intro pe chunks collected cbs ho
    constructor
    · intro hc; subst hc
      simp [Anthropic.streamingBranch, streamFinish, ho, rustIsEmpty]
    · intro hc
      have hb : rustIsEmpty collected = false := by
        cases hcb : rustIsEmpty collected
        · rfl
        · exact absurd ((rustIsEmpty_iff collected).1 hcb) hc
      simp [Anthropic.streamingBranch, streamFinish, ho, hb]
  · intro pc chunks collected cbs ho
    constructor
    · intro hc; subst hc
      simp [DeepSeek.streamingBranch, streamFinish, ho, rustIsEmpty]
    · intro hc
      have hb : rustIsEmpty collected = false := by
        cases hcb : rustIsEmpty collected
        · rfl
        · exact absurd ((rustIsEmpty_iff collected).1 hcb) hc
      simp [DeepSeek.streamingBranch, streamFinish, ho, hb]
  · intro pr chunks collected cbs ho
    constructor
    · intro hc; subst hc
      simp [Gemini.streamingBranch, streamFinish, ho, rustIsEmpty]
    · intro hc
      have hb : rustIsEmpty collected = false := by
        cases hcb : rustIsEmpty collected
        · rfl
        · exact absurd ((rustIsEmpty_iff collected).1 hcb) hc
      simp [Gemini.streamingBranch, streamFinish, ho, hb]

/-- Witness for C7 (amended): an empty stream yields the "No content in
streaming response" error in the OpenAI streaming path. -/
theorem c7_empty_accumulator_error_witness :
    chunksLoopNoCb (OpenAI.lineAct (fun _ => none)) [] "" = Except.ok "" ∧
      OpenAI.stream_openai_request
        { send := Except.ok ⟨200, ""⟩, bodyJson := Except.ok ⟨[]⟩, chunks := [],
          parseChunk := fun _ => none }
        = Except.error (ApiError.Response "No content in streaming response") :=
  ⟨rfl, (c7_empty_accumulator_error.1 (fun _ => none) "" (Except.ok ⟨[]⟩) [] "" rfl).1 rfl⟩

/-! ### Claim theorems: transport error classification (C8) -/

/-- C8 counterexample: the DeepSeek batch call uses the shared client, whose
configured total timeout is `DEFAULT_TIMEOUT` (25 s), but its timeout error
message carries `DEEPSEEK_TIMEOUT` (35 s) — the message does not carry the
timeout actually configured on the client used for the call. -/
theorem c8_counterexample :
    DeepSeek.clientFor false = SHARED_CLIENT ∧
      SHARED_CLIENT.timeoutSecs = some DEFAULT_TIMEOUT ∧
      DeepSeek.mapSendErr SendErr.timedOut
        ≠ ApiError.Timeout ("Request timed out after " ++ toString DEFAULT_TIMEOUT ++ "s") := by
  exact ⟨rfl, rfl, by decide⟩

/-- C8 (amended): network failures are classified into exactly three kinds in
every adapter — a timeout becomes a Timeout error, a connection failure a
Connection error, and any other transport failure or non-2xx status a
Response error carrying the status and body text — but the Timeout message
carries a fixed per-adapter constant (`DEFAULT_TIMEOUT` = 25 s for OpenAI,
Anthropic and Gemini; `DEEPSEEK_TIMEOUT` = 35 s for DeepSeek) rather than the
timeout configured on the client actually used (DeepSeek and Gemini use the
`STREAMING_CLIENT`, which has no total timeout, for streaming calls, and
DeepSeek's batch call uses the 25 s `SHARED_CLIENT`). -/
theorem c8_network_error_classification (msg : String) (b : Bool) :
    (OpenAI.mapSendErr SendErr.timedOut
        = ApiError.Timeout ("Request timed out after " ++ toString DEFAULT_TIMEOUT ++ "s") ∧
      Anthropic.mapSendErr SendErr.timedOut
        = ApiError.Timeout ("Request timed out after " ++ toString DEFAULT_TIMEOUT ++ "s") ∧
      Gemini.mapSendErr SendErr.timedOut
        = ApiError.Timeout ("Request timed out after " ++ toString DEFAULT_TIMEOUT ++ "s") ∧
      DeepSeek.mapSendErr SendErr.timedOut
        = ApiError.Timeout ("Request timed out after " ++ toString DEEPSEEK_TIMEOUT ++ "s")) ∧
    (OpenAI.mapSendErr (SendErr.connectFailed msg) = ApiError.Connection msg ∧
      Anthropic.mapSendErr (SendErr.connectFailed msg) = ApiError.Connection msg ∧
      Gemini.mapSendErr (SendErr.connectFailed msg) = ApiError.Connection msg ∧
      DeepSeek.mapSendErr (SendErr.connectFailed msg) = ApiError.Connection msg) ∧
    (OpenAI.mapSendErr (SendErr.otherFailed msg) = ApiError.Response msg ∧
      Anthropic.mapSendErr (SendErr.otherFailed msg) = ApiError.Response msg ∧
      Gemini.mapSendErr (SendErr.otherFailed msg) = ApiError.Response msg ∧
      DeepSeek.mapSendErr (SendErr.otherFailed msg) = ApiError.Response msg) ∧
    (OpenAI.clientFor b
        = { timeoutSecs := some DEFAULT_TIMEOUT, connectTimeoutSecs := some CONNECTION_TIMEOUT,
            readTimeoutSecs := none } ∧
      Anthropic.clientFor b = SHARED_CLIENT ∧
      Gemini.clientFor b = (if b then STREAMING_CLIENT else SHARED_CLIENT) ∧
      DeepSeek.clientFor b = (if b then STREAMING_CLIENT else SHARED_CLIENT)) ∧
    (∀ (s : Nat) (bt k m t ip sp : String),
      rustIsEmpty k = false → rustIsEmpty m = false → rustIsEmpty t = false →
      statusIsSuccess s = false →
      ∀ (bjo : Except String OpenAI.ChatCompletionResponse)
        (bja : Except String Anthropic.MessagesResponse)
        (bjg : Except String Gemini.GeminiResponse)
        (bjd : Except String DeepSeek.ChatCompletionResponse)
        (chunks : List (Except String String))
        (pco : String → Option OpenAI.StreamChunk)
        (pea : String → Option Anthropic.StreamEvent)
        (prg : String → Option Gemini.GeminiResponse)
        (pcd : String → Option DeepSeek.StreamChunk),
        (OpenAI.correct_text_openai k m t ip sp b
            { send := Except.ok ⟨s, bt⟩, bodyJson := bjo, chunks := chunks, parseChunk := pco }).1
          = Except.error (ApiError.Response ("HTTP " ++ toString s ++ ": " ++ bt)) ∧
        (Anthropic.correct_text_anthropic_with_callback k m t ip sp b
            { send := Except.ok ⟨s, bt⟩, bodyJson := bja, chunks := chunks,
              parseEvent := pea }).1.1
          = Except.error (ApiError.Response ("HTTP " ++ toString s ++ ": " ++ bt)) ∧
        (Gemini.correct_text_gemini_with_callback k m t ip sp b
            { send := Except.ok ⟨s, bt⟩, bodyJson := bjg, chunks := chunks,
              parseResp := prg }).1.1
          = Except.error (ApiError.Response ("HTTP " ++ toString s ++ ": " ++ bt)) ∧
        (DeepSeek.correct_text_deepseek_with_callback k m t ip sp b
            { send := Except.ok ⟨s, bt⟩, bodyJson := bjd, chunks := chunks,
              parseChunk := pcd }).1.1
          = Except.error (ApiError.Response ("HTTP " ++ toString s ++ ": " ++ bt))) ∧
    (∀ (e : SendErr) (k m t ip sp : String),
      rustIsEmpty k = false → rustIsEmpty m = false → rustIsEmpty t = false →
      ∀ (bjo : Except String OpenAI.ChatCompletionResponse)
        (bja : Except String Anthropic.MessagesResponse)
        (bjg : Except String Gemini.GeminiResponse)
        (bjd : Except String DeepSeek.ChatCompletionResponse)
        (chunks : List (Except String String))
        (pco : String → Option OpenAI.StreamChunk)
        (pea : String → Option Anthropic.StreamEvent)
        (prg : String → Option Gemini.GeminiResponse)
        (pcd : String → Option DeepSeek.StreamChunk),
        (OpenAI.correct_text_openai k m t ip sp b
            { send := Except.error e, bodyJson := bjo, chunks := chunks, parseChunk := pco }).1
          = Except.error (OpenAI.mapSendErr e) ∧
        (Anthropic.correct_text_anthropic_with_callback k m t ip sp b
            { send := Except.error e, bodyJson := bja, chunks := chunks,
              parseEvent := pea }).1.1
          = Except.error (Anthropic.mapSendErr e) ∧
        (Gemini.correct_text_gemini_with_callback k m t ip sp b
            { send := Except.error e, bodyJson := bjg, chunks := chunks,
              parseResp := prg }).1.1
          = Except.error (Gemini.mapSendErr e) ∧
        (DeepSeek.correct_text_deepseek_with_callback k m t ip sp b
            { send := Except.error e, bodyJson := bjd, chunks := chunks,
              parseChunk := pcd }).1.1
          = Except.error (DeepSeek.mapSendErr e)) := by
  refine ⟨⟨rfl, rfl, rfl, rfl⟩, ⟨rfl, rfl, rfl, rfl⟩, ⟨rfl, rfl, rfl, rfl⟩,
    ⟨rfl, rfl, rfl, rfl⟩, ?_, ?_⟩
  · intro s bt k m t ip sp hk hm ht hs bjo bja bjg bjd chunks pco pea prg pcd
    refine ⟨?_, ?_, ?_, ?_⟩ <;>
      simp [OpenAI.correct_text_openai, OpenAI.stream_openai_request,
        OpenAI.batch_openai_request, Anthropic.correct_text_anthropic_with_callback,
        Gemini.correct_text_gemini_with_callback, DeepSeek.correct_text_deepseek_with_callback,
        hk, hm, ht, hs]
  · intro e k m t ip sp hk hm ht bjo bja bjg bjd chunks pco pea prg pcd
    refine ⟨?_, ?_, ?_, ?_⟩ <;>
      simp [OpenAI.correct_text_openai, OpenAI.stream_openai_request,
        OpenAI.batch_openai_request, Anthropic.correct_text_anthropic_with_callback,
        Gemini.correct_text_gemini_with_callback, DeepSeek.correct_text_deepseek_with_callback,
        hk, hm, ht]

/-- Witness for C8 (amended): a 404 on the OpenAI batch path carries the
status and body, and a DeepSeek timeout maps to the 35 s Timeout message. -/
theorem c8_network_error_classification_witness :
    rustIsEmpty "k" = false ∧ statusIsSuccess 404 = false ∧
      (OpenAI.correct_text_openai "k" "gpt-4" "txt" "i" "s" false
          { send := Except.ok ⟨404, "not found"⟩, bodyJson := Except.ok ⟨[]⟩, chunks := [],
            parseChunk := fun _ => none }).1
        = Except.error (ApiError.Response ("HTTP " ++ toString 404 ++ ": " ++ "not found")) ∧
      (DeepSeek.correct_text_deepseek_with_callback "k" "ds" "txt" "i" "s" false
          { send := Except.error SendErr.timedOut, bodyJson := Except.ok ⟨[]⟩, chunks := [],
            parseChunk := fun _ => none }).1.1
        = Except.error (DeepSeek.mapSendErr SendErr.timedOut) :=
  ⟨rfl, rfl,
    ((c8_network_error_classification "x" false).2.2.2.2.1 404 "not found" "k" "gpt-4" "txt"
        "i" "s" rfl rfl rfl rfl (Except.ok ⟨[]⟩) (Except.ok ⟨[]⟩) (Except.ok ⟨none⟩)
        (Except.ok ⟨[]⟩) [] (fun _ => none) (fun _ => none) (fun _ => none)
        (fun _ => none)).1,
    ((c8_network_error_classification "x" false).2.2.2.2.2 SendErr.timedOut "k" "ds" "txt"
        "i" "s" rfl rfl rfl (Except.ok ⟨[]⟩) (Except.ok ⟨[]⟩) (Except.ok ⟨none⟩)
        (Except.ok ⟨[]⟩) [] (fun _ => none) (fun _ => none) (fun _ => none)
        (fun _ => none)).2.2.2⟩

/-! ### Claim theorems: streaming chunk concatenation (C6) -/

/-- If the finishing step of a streaming branch returns Ok and the incoming
accumulator equals the concatenation of the callback arguments, then the Ok
text is the trimmed concatenation of the callback arguments. -/
theorem streamFinish_concat (p : Except String String × List String)
    (hp : ∀ collected, p.1 = Except.ok collected → collected = String.join p.2)
    (final : String) (h : (streamFinish p).1 = Except.ok final) :
    final = rustTrim (String.join (streamFinish p).2) := by
  obtain ⟨r, cbs⟩ := p
  cases r with
  | error e => simp [streamFinish] at h
  | ok collected =>
    have hcol : collected = String.join cbs := hp collected rfl
    by_cases hb : rustIsEmpty collected = true
    · simp [streamFinish, hb] at h
    · simp only [Bool.not_eq_true] at hb
      simp [streamFinish, hb] at h ⊢
      rw [← h, hcol]

/-- C6: for each adapter in streaming mode with a chunk callback (Anthropic,
DeepSeek, Gemini), whenever the streaming path returns Ok, the final text
equals the concatenation of all text fragments passed to the chunk callback,
with surrounding whitespace trimmed. -/
theorem c6_stream_concat :
    (∀ (pe : String → Option Anthropic.StreamEvent) (chunks : List (Except String String))
        (final : String), (Anthropic.streamingBranch pe chunks).1 = Except.ok final →
        final = rustTrim (String.join (Anthropic.streamingBranch pe chunks).2)) ∧
    (∀ (pc : String → Option DeepSeek.StreamChunk) (chunks : List (Except String String))
        (final : String), (DeepSeek.streamingBranch pc chunks).1 = Except.ok final →
        final = rustTrim (String.join (DeepSeek.streamingBranch pc chunks).2)) ∧
    (∀ (pr : String → Option Gemini.GeminiResponse) (chunks : List (Except String String))
        (final : String), (Gemini.streamingBranch pr chunks).1 = Except.ok final →
        final = rustTrim (String.join (Gemini.streamingBranch pr chunks).2)) := by
  refine ⟨?_, ?_, ?_⟩
  · intro pe chunks final h
    exact streamFinish_concat _
      (fun collected hc =>
        chunksLoop_inv (Anthropic.lineAct pe) chunks "" [] rfl collected _
          (Prod.ext_iff.mpr ⟨hc, rfl⟩))
      final h
  · intro pc chunks final h
    exact streamFinish_concat _
      (fun collected hc =>
        chunksLoop_inv (DeepSeek.lineAct pc) chunks "" [] rfl collected _
          (Prod.ext_iff.mpr ⟨hc, rfl⟩))
      final h
  · intro pr chunks final h
    exact streamFinish_concat _
      (fun collected hc =>
        chunksLoop_inv (Gemini.lineAct pr) chunks "" [] rfl collected _
          (Prod.ext_iff.mpr ⟨hc, rfl⟩))
      final h

/-- Witness for C6: one Anthropic SSE frame emitting the fragment
`" Hello "` — the callback receives exactly that fragment and the terminal Ok
text is its trimmed concatenation, `"Hello"`. -/
theorem c6_stream_concat_witness :
    (Anthropic.streamingBranch
        (fun _ => some ⟨"content_block_delta", some ⟨some "text_delta", some " Hello "⟩⟩)
        [Except.ok "data: x"]).1 = Except.ok "Hello" ∧
      "Hello" = rustTrim (String.join (Anthropic.streamingBranch
        (fun _ => some ⟨"content_block_delta", some ⟨some "text_delta", some " Hello "⟩⟩)
        [Except.ok "data: x"]).2) :=
  ⟨by decide, c6_stream_concat.1 _ _ _ (by decide)⟩
